import Mathlib

/-!
A shallow embedding of `src/apps/synthmark.cpp` (the SynthMark command-line
driver): command-line argument parsing, configuration validation, harness
dispatch, and the process exit status.

C strings are modelled as `List Char` (without the terminating NUL); reading
one position past the stored characters yields the NUL character, as in C.
`int32_t` values are modelled as `Int` (no input considered here approaches
the 32-bit range). The floating-point constant `0.01` in
`percentCpu * 0.01` is modelled as the rational `1/100`.
-/

set_option autoImplicit false

namespace SynthMarkCli

/-- The NUL character, returned when C code indexes past the stored characters. -/
def nulChar : Char := Char.ofNat 0

/-- A C string: its characters before the terminating NUL. -/
abbrev CStr := List Char

/-- Read `s[i]` as C does: the character at `i`, or NUL at/after the end. -/
def cGet (s : CStr) (i : Nat) : Char := s.getD i nulChar

/-- C `isspace` in the default locale: space, \t, \n, \v, \f, \r. -/
def isSpaceC (ch : Char) : Bool :=
  ch = ' ' || ch = '\t' || ch = '\n' || ch = Char.ofNat 11 || ch = Char.ofNat 12 || ch = '\r'

/-- Numeric value of a decimal digit character. -/
def digitVal (ch : Char) : Int := (ch.toNat : Int) - 48

/-- Accumulate leading decimal digits, as the digit loop of C `atoi` does. -/
def atoiLoop : List Char → Int → Int
  | [], acc => acc
  | ch :: rest, acc =>
      if ch.isDigit then atoiLoop rest (acc * 10 + digitVal ch) else acc

/-- C `atoi`: skip whitespace, read an optional sign and leading digits;
a string with no leading digits yields 0. Overflow is not modelled. -/
def atoi (s : CStr) : Int :=
  match s.dropWhile isSpaceC with
  | '-' :: rest => - atoiLoop rest 0
  | '+' :: rest => atoiLoop rest 0
  | t => atoiLoop t 0

/-- Modelled from the spec: the compile-time constants of `SynthMark.h`,
which is not under `src/` (only `synthmark.cpp` is). `maxVoices` is
`SYNTHMARK_MAX_VOICES`, `defaultSampleRate` is `SYNTHMARK_SAMPLE_RATE`,
`defaultFramesPerBurst` is `SYNTHMARK_FRAMES_PER_BURST`, `defaultPercentCpu`
is `(int)(100 * SYNTHMARK_TARGET_CPU_LOAD)`, and `cpuUnspecified` is
`SYNTHMARK_CPU_UNSPECIFIED`. All theorems are parametric in these values. -/
structure Consts where
  maxVoices : Int
  defaultSampleRate : Int
  defaultFramesPerBurst : Int
  defaultPercentCpu : Int
  cpuUnspecified : Int
  deriving DecidableEq

/-- Modelled from the spec: a concrete instance of the `SynthMark.h`
constants, for evaluating the model on closed inputs (the spec gives 48000
as a typical sample rate and leaves the others open; the closed inputs used
below set every parameter explicitly, so these values never matter). -/
def specConsts : Consts :=
  { maxVoices := 512
    defaultSampleRate := 48000
    defaultFramesPerBurst := 96
    defaultPercentCpu := 50
    cpuUnspecified := -1 }

/-- The mutable locals of `main` that the argument loop fills in. -/
structure Params where
  percentCpu : Int
  sampleRate : Int
  framesPerBurst : Int
  numSeconds : Int
  numVoices : Int
  numVoicesHigh : Int
  numSecondsDelayNoteOn : Int
  cpuAffinity : Int
  testCode : Char
  deriving DecidableEq

/-- The initial values of `main`'s locals (`DEFAULT_SECONDS = 10`,
`DEFAULT_NUM_VOICES = 8`, `numVoicesHigh = 0`, `DEFAULT_NOTE_ON_DELAY = 0`,
`DEFAULT_TEST_CODE = 'v'`; the rest come from `SynthMark.h`). -/
def defaults (c : Consts) : Params :=
  { percentCpu := c.defaultPercentCpu
    sampleRate := c.defaultSampleRate
    framesPerBurst := c.defaultFramesPerBurst
    numSeconds := 10
    numVoices := 8
    numVoicesHigh := 0
    numSecondsDelayNoteOn := 0
    cpuAffinity := c.cpuUnspecified
    testCode := 'v' }

/-- Outcome of one iteration of the argument loop. -/
inductive StepResult where
  | next (p : Params)
  | help
  | bad
  deriving DecidableEq

/-- One iteration of the argument loop of `main`: an argument starting with
`-` is dispatched on its second character (`switch(arg[1])`); `-h` and `-?`
request the usage text; anything else is an error. -/
def parseStep (p : Params) (a : CStr) : StepResult :=
  if cGet a 0 = '-' then
    if cGet a 1 = 'c' then .next { p with cpuAffinity := atoi (a.drop 2) }
    else if cGet a 1 = 'p' then .next { p with percentCpu := atoi (a.drop 2) }
    else if cGet a 1 = 'n' then .next { p with numVoices := atoi (a.drop 2) }
    else if cGet a 1 = 'N' then .next { p with numVoicesHigh := atoi (a.drop 2) }
    else if cGet a 1 = 'd' then .next { p with numSecondsDelayNoteOn := atoi (a.drop 2) }
    else if cGet a 1 = 'r' then .next { p with sampleRate := atoi (a.drop 2) }
    else if cGet a 1 = 's' then .next { p with numSeconds := atoi (a.drop 2) }
    else if cGet a 1 = 'b' then .next { p with framesPerBurst := atoi (a.drop 2) }
    else if cGet a 1 = 't' then .next { p with testCode := cGet a 2 }
    else if cGet a 1 = 'h' then .help
    else if cGet a 1 = '?' then .help
    else .bad
  else .bad

/-- Outcome of the whole argument loop. -/
inductive ParseOutcome where
  | ok (p : Params)
  | help
  | err
  deriving DecidableEq

/-- The argument loop of `main` over `argv[1..]`: `-h`/`-?` return 0
immediately, an unrecognized switch or argument returns 1 immediately,
otherwise the loop updates the locals and continues. -/
def parseArgs (p : Params) : List CStr → ParseOutcome
  | [] => .ok p
  | a :: rest =>
      match parseStep p a with
      | .next q => parseArgs q rest
      | .help => .help
      | .bad => .err

/-- Condition of the first validation check of `main`:
`percentCpu < 1 || percentCpu > 100`. -/
abbrev percentRejected (p : Params) : Prop :=
  p.percentCpu < 1 ∨ p.percentCpu > 100

/-- Condition of the second validation check of `main`:
`(numVoices < 1 && numVoicesHigh <= 0) || numVoices < 0 || numVoices > SYNTHMARK_MAX_VOICES`. -/
abbrev voicesRejected (c : Consts) (p : Params) : Prop :=
  (p.numVoices < 1 ∧ p.numVoicesHigh ≤ 0) ∨ p.numVoices < 0 ∨ p.numVoices > c.maxVoices

/-- Condition of the third validation check of `main`:
`numVoicesHigh != 0 && numVoicesHigh < numVoices`. -/
abbrev voicesHighRejected (p : Params) : Prop :=
  p.numVoicesHigh ≠ 0 ∧ p.numVoicesHigh < p.numVoices

/-- Condition of the fourth validation check of `main`:
`numVoicesHigh != 0 && testCode != 'l'`. -/
abbrev voicesHighTestRejected (p : Params) : Prop :=
  p.numVoicesHigh ≠ 0 ∧ p.testCode ≠ 'l'

/-- Condition of the fifth validation check of `main`: `numSeconds < 1`. -/
abbrev secondsRejected (p : Params) : Prop :=
  p.numSeconds < 1

/-- Condition of the sixth validation check of `main`:
`numSecondsDelayNoteOn < 0 || numSecondsDelayNoteOn > numSeconds`. -/
abbrev delayRejected (p : Params) : Prop :=
  p.numSecondsDelayNoteOn < 0 ∨ p.numSecondsDelayNoteOn > p.numSeconds

/-- Condition of the seventh validation check of `main`: `framesPerBurst < 4`. -/
abbrev burstRejected (p : Params) : Prop :=
  p.framesPerBurst < 4

/-- The distinct `return 1` sites of `main`'s validation sequence. -/
inductive VErr where
  | invalidPercentCpu
  | invalidNumVoices
  | invalidNumVoicesHigh
  | voicesHighOnlyLatency
  | invalidSeconds
  | invalidNoteOnDelay
  | burstTooSmall
  deriving DecidableEq

/-- The validation sequence of `main`, in source order; `none` means every
check passed and control reaches harness construction. Note that
`sampleRate` is never examined here. -/
def firstError (c : Consts) (p : Params) : Option VErr :=
  if percentRejected p then some .invalidPercentCpu
  else if voicesRejected c p then some .invalidNumVoices
  else if voicesHighRejected p then some .invalidNumVoicesHigh
  else if voicesHighTestRejected p then some .voicesHighOnlyLatency
  else if secondsRejected p then some .invalidSeconds
  else if delayRejected p then some .invalidNoteOnDelay
  else if burstRejected p then some .burstTooSmall
  else none

/-- The four concrete harness classes. -/
inductive HarnessKind where
  | voiceMark
  | latencyMark
  | jitterMark
  | utilizationMark
  deriving DecidableEq

/-- A constructed harness together with the values its setters received
before `runTest`. Every branch then runs `harness->setNumVoices(numVoices)`
and `harness->setDelayNotesOn(numSecondsDelayNoteOn)`; the `voice` branch
first runs `setTargetCpuLoad(percentCpu * 0.01)` and
`setInitialVoiceCount(numVoices)`, the `latency` branch
`setNumVoicesHigh(numVoicesHigh)`, and the `utilization` branch its own
`setNumVoices(numVoices)`. -/
inductive HarnessSetup where
  | voice (targetCpuLoad : ℚ) (initialVoiceCount numVoices delayNotesOn : Int)
  | latency (numVoicesHigh numVoices delayNotesOn : Int)
  | jitter (numVoices delayNotesOn : Int)
  | utilization (numVoicesUtil numVoices delayNotesOn : Int)
  deriving DecidableEq

/-- Which harness class a `HarnessSetup` instantiates. -/
def HarnessSetup.tag : HarnessSetup → HarnessKind
  | .voice _ _ _ _ => .voiceMark
  | .latency _ _ _ => .latencyMark
  | .jitter _ _ => .jitterMark
  | .utilization _ _ _ => .utilizationMark

/-- The harness class selected by each test code in `main`'s `switch`. -/
def codeTag (tc : Char) : Option HarnessKind :=
  if tc = 'v' then some .voiceMark
  else if tc = 'l' then some .latencyMark
  else if tc = 'j' then some .jitterMark
  else if tc = 'u' then some .utilizationMark
  else none

/-- The `switch(testCode)` of `main`: construct the harness for the test
code and apply its setters; the `default` branch reports an error
(`return 1` there is modelled by `none`). -/
def buildHarness (p : Params) : Option HarnessSetup :=
  if p.testCode = 'v' then
    some (.voice ((p.percentCpu : ℚ) * (1 / 100)) p.numVoices p.numVoices
      p.numSecondsDelayNoteOn)
  else if p.testCode = 'l' then
    some (.latency p.numVoicesHigh p.numVoices p.numSecondsDelayNoteOn)
  else if p.testCode = 'j' then
    some (.jitter p.numVoices p.numSecondsDelayNoteOn)
  else if p.testCode = 'u' then
    some (.utilization p.numVoices p.numVoices p.numSecondsDelayNoteOn)
  else none

/-- The observable outcome of `main`: exit 0 from `-h`/`-?`, exit 1 from a
parse or validation or dispatch failure before any test runs, or a
constructed harness whose `runTest(sampleRate, framesPerBurst, numSeconds)`
is invoked with the recorded parameters. -/
inductive MainOutcome where
  | helpExit
  | usageError
  | run (h : HarnessSetup) (p : Params)
  deriving DecidableEq

/-- The control flow of `main` from `argv[1..]` to its outcome. -/
def mainModel (c : Consts) (args : List CStr) : MainOutcome :=
  match parseArgs (defaults c) args with
  | .help => .helpExit
  | .err => .usageError
  | .ok p =>
      match firstError c p with
      | some _ => .usageError
      | none =>
          match buildHarness p with
          | none => .usageError
          | some h => .run h p

/-- Modelled from the spec: `SynthMarkResult`, defined outside `src/`, as
far as `main` observes it — the result code queried by `getResultCode()`
after `runTest` returns; the convention is 0 = pass, non-zero = a specific
failure kind. -/
structure SynthMarkResult where
  resultCode : Int
  deriving DecidableEq

/-- Process exit status of each outcome: `-h`/`-?` return 0, every
pre-run failure returns 1, and after a run `main` returns
`result.getResultCode()`, here `(rt h p).resultCode` for the result `rt`
that `runTest` produced. -/
def exitOf (rt : HarnessSetup → Params → SynthMarkResult) : MainOutcome → Int
  | .helpExit => 0
  | .usageError => 1
  | .run h p => (rt h p).resultCode

/-- The process exit status of `main`, given the behaviour `rt` of
`runTest` (which lives outside `src/`). -/
def programExit (rt : HarnessSetup → Params → SynthMarkResult)
    (c : Consts) (args : List CStr) : Int :=
  exitOf rt (mainModel c args)

/-! ### Basic lemmas about the control flow of `main` -/

theorem firstError_eq_none_iff (c : Consts) (p : Params) :
    firstError c p = none ↔
      ¬percentRejected p ∧ ¬voicesRejected c p ∧ ¬voicesHighRejected p ∧
      ¬voicesHighTestRejected p ∧ ¬secondsRejected p ∧ ¬delayRejected p ∧
      ¬burstRejected p := by
  unfold firstError
  split_ifs <;> simp_all

theorem mainModel_usageError_of_firstError (c : Consts) (args : List CStr)
    (p : Params) (hp : parseArgs (defaults c) args = .ok p)
    (he : firstError c p ≠ none) : mainModel c args = .usageError := by
  rcases hfe : firstError c p with _ | e
  · exact absurd hfe he
  · simp [mainModel, hp, hfe]

theorem mainModel_run_inv {c : Consts} {args : List CStr} {h : HarnessSetup}
    {p : Params} (hm : mainModel c args = .run h p) :
    parseArgs (defaults c) args = .ok p ∧ firstError c p = none ∧
    buildHarness p = some h := by
  unfold mainModel at hm
  split at hm
  · exact absurd hm (by simp)
  · exact absurd hm (by simp)
  case _ q hq =>
    split at hm
    · exact absurd hm (by simp)
    case _ hfe =>
      split at hm
      · exact absurd hm (by simp)
      case _ hs hb =>
        rw [MainOutcome.run.injEq] at hm
        obtain ⟨rfl, rfl⟩ := hm
        exact ⟨hq, hfe, hb⟩

theorem buildHarness_tag {p : Params} {h : HarnessSetup}
    (hb : buildHarness p = some h) : codeTag p.testCode = some h.tag := by
  unfold buildHarness at hb
  split_ifs at hb with h1 h2 h3 h4
  · rw [Option.some.injEq] at hb; subst hb; simp [codeTag, h1, HarnessSetup.tag]
  · rw [Option.some.injEq] at hb; subst hb; simp [codeTag, h1, h2, HarnessSetup.tag]
  · rw [Option.some.injEq] at hb; subst hb; simp [codeTag, h1, h2, h3, HarnessSetup.tag]
  · rw [Option.some.injEq] at hb; subst hb; simp [codeTag, h1, h2, h3, h4, HarnessSetup.tag]

theorem buildHarness_eq_none_iff (p : Params) :
    buildHarness p = none ↔ codeTag p.testCode = none := by
  unfold buildHarness codeTag
  split_ifs <;> simp

/-! ### Validation of the high voice count (claims C1, C4) -/

/-- Claim C1, amended: whenever the parsed `numVoicesHigh` is nonzero and
less than `numVoices`, configuration validation fails and `main` exits with
status 1 before any harness is constructed or `runTest` is called. (The
unamended claim, quantifying over all `numVoicesHigh < numVoices`, fails at
`numVoicesHigh = 0`, which the check `numVoicesHigh != 0 && ...` exempts.) -/
theorem nonzero_numVoicesHigh_below_numVoices_rejected
    (c : Consts) (args : List CStr) (p : Params)
    (hp : parseArgs (defaults c) args = .ok p)
    (h0 : p.numVoicesHigh ≠ 0) (hlt : p.numVoicesHigh < p.numVoices) :
    mainModel c args = .usageError := by
  apply mainModel_usageError_of_firstError c args p hp
  intro hn
  rw [firstError_eq_none_iff] at hn
  exact hn.2.2.1 ⟨h0, hlt⟩

/-- A command line whose `numVoicesHigh` is 0 while `numVoices` is 8. -/
def argsHighZero : List CStr :=
  [['-','t','l'], ['-','n','8'], ['-','N','0'], ['-','p','5','0'],
   ['-','r','4','8','0','0','0'], ['-','s','1','0'], ['-','b','6','4'],
   ['-','d','0'], ['-','c','0']]

/-- The parse of `argsHighZero`. -/
def paramsHighZero : Params :=
  { percentCpu := 50, sampleRate := 48000, framesPerBurst := 64,
    numSeconds := 10, numVoices := 8, numVoicesHigh := 0,
    numSecondsDelayNoteOn := 0, cpuAffinity := 0, testCode := 'l' }

/-- Claim C1, counterexample to the unamended statement: on a command line
parsed with `numVoicesHigh = 0 < 8 = numVoices`, validation passes, a
LatencyMarkHarness is constructed and `runTest` is invoked — the program
does not exit with status 1. -/
theorem numVoicesHigh_zero_below_numVoices_runs :
    parseArgs (defaults specConsts) argsHighZero = .ok paramsHighZero ∧
    paramsHighZero.numVoicesHigh < paramsHighZero.numVoices ∧
    mainModel specConsts argsHighZero = .run (.latency 0 8 0) paramsHighZero := by
  decide

/-- A command line with `numVoicesHigh = 2` below `numVoices = 8`. -/
def argsHighTwo : List CStr :=
  [['-','t','l'], ['-','n','8'], ['-','N','2'], ['-','p','5','0'],
   ['-','r','4','8','0','0','0'], ['-','s','1','0'], ['-','b','6','4'],
   ['-','d','0'], ['-','c','0']]

/-- The parse of `argsHighTwo`. -/
def paramsHighTwo : Params :=
  { percentCpu := 50, sampleRate := 48000, framesPerBurst := 64,
    numSeconds := 10, numVoices := 8, numVoicesHigh := 2,
    numSecondsDelayNoteOn := 0, cpuAffinity := 0, testCode := 'l' }

/-- Witness for the amended claim C1 at `numVoicesHigh = 2`, `numVoices = 8`. -/
theorem nonzero_numVoicesHigh_below_numVoices_rejected_witness :
    mainModel specConsts argsHighTwo = .usageError :=
  nonzero_numVoicesHigh_below_numVoices_rejected specConsts argsHighTwo
    paramsHighTwo (by decide) (by decide) (by decide)

/-- Claim C4: a nonzero `numVoicesHigh` together with any test code other
than `'l'` is rejected at configuration time with exit status 1, before a
harness is constructed and before any run starts. -/
theorem numVoicesHigh_requires_latency_test
    (c : Consts) (args : List CStr) (p : Params)
    (hp : parseArgs (defaults c) args = .ok p)
    (h0 : p.numVoicesHigh ≠ 0) (ht : p.testCode ≠ 'l') :
    mainModel c args = .usageError := by
  apply mainModel_usageError_of_firstError c args p hp
  intro hn
  rw [firstError_eq_none_iff] at hn
  exact hn.2.2.2.1 ⟨h0, ht⟩

/-- A command line selecting the jitter test with a nonzero `numVoicesHigh`. -/
def argsHighJitter : List CStr :=
  [['-','t','j'], ['-','n','8'], ['-','N','9'], ['-','p','5','0'],
   ['-','r','4','8','0','0','0'], ['-','s','1','0'], ['-','b','6','4'],
   ['-','d','0'], ['-','c','0']]

/-- The parse of `argsHighJitter`. -/
def paramsHighJitter : Params :=
  { percentCpu := 50, sampleRate := 48000, framesPerBurst := 64,
    numSeconds := 10, numVoices := 8, numVoicesHigh := 9,
    numSecondsDelayNoteOn := 0, cpuAffinity := 0, testCode := 'j' }

/-- Witness for claim C4 at `numVoicesHigh = 9` with test code `'j'`. -/
theorem numVoicesHigh_requires_latency_test_witness :
    mainModel specConsts argsHighJitter = .usageError :=
  numVoicesHigh_requires_latency_test specConsts argsHighJitter
    paramsHighJitter (by decide) (by decide) (by decide)

/-! ### Burst size and sample rate (claim C2) -/

/-- Claim C2, amended: a `framesPerBurst` below 4 frames is rejected with
exit status 1 before any harness is constructed or `runTest` is called.
(The unamended claim also covers `sampleRate ≤ 0`, but `main` never
examines `sampleRate`: it is passed straight through to `runTest`, so a
nonpositive sample rate does not prevent harness construction.) -/
theorem small_framesPerBurst_rejected
    (c : Consts) (args : List CStr) (p : Params)
    (hp : parseArgs (defaults c) args = .ok p)
    (hb : p.framesPerBurst < 4) :
    mainModel c args = .usageError := by
  apply mainModel_usageError_of_firstError c args p hp
  intro hn
  rw [firstError_eq_none_iff] at hn
  exact hn.2.2.2.2.2.2 hb

/-- A command line requesting sample rate 0 with all other parameters valid. -/
def argsRateZero : List CStr :=
  [['-','t','j'], ['-','n','8'], ['-','p','5','0'], ['-','r','0'],
   ['-','s','1','0'], ['-','b','6','4'], ['-','d','0'], ['-','c','0']]

/-- The parse of `argsRateZero`. -/
def paramsRateZero : Params :=
  { percentCpu := 50, sampleRate := 0, framesPerBurst := 64,
    numSeconds := 10, numVoices := 8, numVoicesHigh := 0,
    numSecondsDelayNoteOn := 0, cpuAffinity := 0, testCode := 'j' }

/-- Claim C2, counterexample to the sample-rate half: with `sampleRate = 0`
(and every other parameter valid), validation passes, a JitterMarkHarness
is constructed, and `runTest` is invoked with the nonpositive sample rate —
the program does not exit before the run. -/
theorem nonpositive_sampleRate_reaches_runTest :
    parseArgs (defaults specConsts) argsRateZero = .ok paramsRateZero ∧
    paramsRateZero.sampleRate ≤ 0 ∧
    mainModel specConsts argsRateZero = .run (.jitter 8 0) paramsRateZero := by
  decide

/-- A command line requesting a burst size of 2 frames. -/
def argsBurstTwo : List CStr :=
  [['-','t','v'], ['-','n','8'], ['-','p','5','0'],
   ['-','r','4','8','0','0','0'], ['-','s','1','0'], ['-','b','2'],
   ['-','d','0'], ['-','c','0']]

/-- The parse of `argsBurstTwo`. -/
def paramsBurstTwo : Params :=
  { percentCpu := 50, sampleRate := 48000, framesPerBurst := 2,
    numSeconds := 10, numVoices := 8, numVoicesHigh := 0,
    numSecondsDelayNoteOn := 0, cpuAffinity := 0, testCode := 'v' }

/-- Witness for the amended claim C2 at `framesPerBurst = 2`. -/
theorem small_framesPerBurst_rejected_witness :
    mainModel specConsts argsBurstTwo = .usageError :=
  small_framesPerBurst_rejected specConsts argsBurstTwo paramsBurstTwo
    (by decide) (by decide)

/-! ### Voice-count range validation (claim C3) -/

/-- Claim C3, amended: every `numVoices` outside `[0, MAX_VOICES]` is
rejected with exit status 1 before a run starts; inside the range, the
voice-count check accepts `numVoices` exactly when `numVoices ≥ 1` or
`numVoicesHigh ≥ 1`. (The unamended claim, that every value in
`[0, MAX_VOICES]` is accepted, fails at `numVoices = 0` with
`numVoicesHigh ≤ 0`.) -/
theorem numVoices_range_validation
    (c : Consts) (args : List CStr) (p : Params)
    (hp : parseArgs (defaults c) args = .ok p) :
    ((p.numVoices < 0 ∨ p.numVoices > c.maxVoices) →
      mainModel c args = .usageError) ∧
    (¬voicesRejected c p ↔
      0 ≤ p.numVoices ∧ p.numVoices ≤ c.maxVoices ∧
      (1 ≤ p.numVoices ∨ 1 ≤ p.numVoicesHigh)) := by
  constructor
  · intro hout
    apply mainModel_usageError_of_firstError c args p hp
    intro hn
    rw [firstError_eq_none_iff] at hn
    exact hn.2.1 (Or.inr hout)
  · unfold voicesRejected
    omega

/-- A command line requesting zero voices (with `numVoicesHigh` left 0). -/
def argsVoicesZero : List CStr :=
  [['-','t','v'], ['-','n','0'], ['-','p','5','0'],
   ['-','r','4','8','0','0','0'], ['-','s','1','0'], ['-','b','6','4'],
   ['-','d','0'], ['-','c','0']]

/-- The parse of `argsVoicesZero`. -/
def paramsVoicesZero : Params :=
  { percentCpu := 50, sampleRate := 48000, framesPerBurst := 64,
    numSeconds := 10, numVoices := 0, numVoicesHigh := 0,
    numSecondsDelayNoteOn := 0, cpuAffinity := 0, testCode := 'v' }

/-- Claim C3, counterexample to the unamended statement: `numVoices = 0`
lies within `[0, MAX_VOICES]`, yet the configuration is rejected with exit
status 1 because `numVoicesHigh ≤ 0`. -/
theorem numVoices_zero_in_range_rejected :
    parseArgs (defaults specConsts) argsVoicesZero = .ok paramsVoicesZero ∧
    0 ≤ paramsVoicesZero.numVoices ∧
    paramsVoicesZero.numVoices ≤ specConsts.maxVoices ∧
    mainModel specConsts argsVoicesZero = .usageError := by
  decide

/-- A command line requesting 600 voices, above `specConsts.maxVoices = 512`. -/
def argsVoices600 : List CStr :=
  [['-','t','v'], ['-','n','6','0','0'], ['-','p','5','0'],
   ['-','r','4','8','0','0','0'], ['-','s','1','0'], ['-','b','6','4'],
   ['-','d','0'], ['-','c','0']]

/-- The parse of `argsVoices600`. -/
def paramsVoices600 : Params :=
  { percentCpu := 50, sampleRate := 48000, framesPerBurst := 64,
    numSeconds := 10, numVoices := 600, numVoicesHigh := 0,
    numSecondsDelayNoteOn := 0, cpuAffinity := 0, testCode := 'v' }

/-- Witness for the amended claim C3 at `numVoices = 600 > 512`. -/
theorem numVoices_range_validation_witness :
    mainModel specConsts argsVoices600 = .usageError :=
  (numVoices_range_validation specConsts argsVoices600 paramsVoices600
    (by decide)).1 (by decide)

/-! ### Harness dispatch (claim C5) -/

/-- Claim C5: the test code selects exactly one of the four closed
variants — whenever a run starts, the constructed harness class is the one
`codeTag` assigns to the parsed test code (`'v'` → VoiceMark, `'l'` →
LatencyMark, `'j'` → JitterMark, `'u'` → UtilizationMark); and for a test
code outside that set the program exits with status 1 without constructing
a harness or running a test. -/
theorem testCode_dispatch_closed
    (c : Consts) (args : List CStr) (p : Params)
    (hp : parseArgs (defaults c) args = .ok p) :
    (∀ h q, mainModel c args = .run h q →
      q = p ∧ codeTag q.testCode = some (HarnessSetup.tag h)) ∧
    (codeTag p.testCode = none → mainModel c args = .usageError) := by
  constructor
  · intro h q hm
    obtain ⟨hq, _, hb⟩ := mainModel_run_inv hm
    rw [hp, ParseOutcome.ok.injEq] at hq
    subst hq
    exact ⟨rfl, buildHarness_tag hb⟩
  · intro hnone
    rcases hfe : firstError c p with _ | e
    · have hb : buildHarness p = none := (buildHarness_eq_none_iff p).mpr hnone
      simp [mainModel, hp, hfe, hb]
    · exact mainModel_usageError_of_firstError c args p hp (by simp [hfe])

/-- A command line selecting the unknown test code `'x'`. -/
def argsCodeX : List CStr :=
  [['-','t','x'], ['-','n','8'], ['-','p','5','0'],
   ['-','r','4','8','0','0','0'], ['-','s','1','0'], ['-','b','6','4'],
   ['-','d','0'], ['-','c','0']]

/-- The parse of `argsCodeX`. -/
def paramsCodeX : Params :=
  { percentCpu := 50, sampleRate := 48000, framesPerBurst := 64,
    numSeconds := 10, numVoices := 8, numVoicesHigh := 0,
    numSecondsDelayNoteOn := 0, cpuAffinity := 0, testCode := 'x' }

/-- Witness for claim C5 at the unrecognized test code `'x'`. -/
theorem testCode_dispatch_closed_witness :
    mainModel specConsts argsCodeX = .usageError :=
  (testCode_dispatch_closed specConsts argsCodeX paramsCodeX (by decide)).2
    (by decide)

/-! ### Target CPU percent (claim C6) -/

/-- Claim C6: a requested CPU percent outside `[1, 100]` makes `main` exit
with status 1 before any harness is constructed; and whenever a
VoiceMarkHarness run starts, the accepted percent lies in `[1, 100]` and
the value handed to `setTargetCpuLoad` is `percentCpu * 0.01`, a fraction
in `(0, 1]`. -/
theorem percentCpu_validation_and_target_load
    (c : Consts) (args : List CStr) (p : Params)
    (hp : parseArgs (defaults c) args = .ok p) :
    ((p.percentCpu < 1 ∨ p.percentCpu > 100) →
      mainModel c args = .usageError) ∧
    (∀ t iv nv d q, mainModel c args = .run (.voice t iv nv d) q →
      1 ≤ q.percentCpu ∧ q.percentCpu ≤ 100 ∧
      t = (q.percentCpu : ℚ) * (1 / 100) ∧ 0 < t ∧ t ≤ 1) := by
  constructor
  · intro hout
    apply mainModel_usageError_of_firstError c args p hp
    intro hn
    rw [firstError_eq_none_iff] at hn
    exact hn.1 hout
  · intro t iv nv d q hm
    obtain ⟨_, hfe, hb⟩ := mainModel_run_inv hm
    rw [firstError_eq_none_iff] at hfe
    have hpc : 1 ≤ q.percentCpu ∧ q.percentCpu ≤ 100 := by
      have hr := hfe.1
      unfold percentRejected at hr
      omega
    have h1Q : (1 : ℚ) ≤ (q.percentCpu : ℚ) := by exact_mod_cast hpc.1
    have h2Q : (q.percentCpu : ℚ) ≤ 100 := by exact_mod_cast hpc.2
    unfold buildHarness at hb
    split_ifs at hb with h1 h2 h3 h4
    · rw [Option.some.injEq, HarnessSetup.voice.injEq] at hb
      obtain ⟨ht, _, _, _⟩ := hb
      refine ⟨hpc.1, hpc.2, ht.symm, ?_, ?_⟩
      · rw [← ht]; linarith
      · rw [← ht]; linarith
    all_goals simp at hb

/-- A command line requesting 101 percent CPU. -/
def argsPercent101 : List CStr :=
  [['-','t','v'], ['-','n','8'], ['-','p','1','0','1'],
   ['-','r','4','8','0','0','0'], ['-','s','1','0'], ['-','b','6','4'],
   ['-','d','0'], ['-','c','0']]

/-- The parse of `argsPercent101`. -/
def paramsPercent101 : Params :=
  { percentCpu := 101, sampleRate := 48000, framesPerBurst := 64,
    numSeconds := 10, numVoices := 8, numVoicesHigh := 0,
    numSecondsDelayNoteOn := 0, cpuAffinity := 0, testCode := 'v' }

/-- Witness for claim C6 at `percentCpu = 101`. -/
theorem percentCpu_validation_and_target_load_witness :
    mainModel specConsts argsPercent101 = .usageError :=
  (percentCpu_validation_and_target_load specConsts argsPercent101
    paramsPercent101 (by decide)).1 (by decide)

/-! ### Note-on delay (claim C7) -/

/-- Claim C7: the note-on delay is accepted by its validation check exactly
when `0 ≤ delay ≤ numSeconds`; a delay outside that range makes `main` exit
with status 1 before the run starts. -/
theorem noteOnDelay_validation
    (c : Consts) (args : List CStr) (p : Params)
    (hp : parseArgs (defaults c) args = .ok p) :
    (¬delayRejected p ↔
      0 ≤ p.numSecondsDelayNoteOn ∧
      p.numSecondsDelayNoteOn ≤ p.numSeconds) ∧
    (¬(0 ≤ p.numSecondsDelayNoteOn ∧
        p.numSecondsDelayNoteOn ≤ p.numSeconds) →
      mainModel c args = .usageError) := by
  constructor
  · unfold delayRejected
    omega
  · intro hbad
    apply mainModel_usageError_of_firstError c args p hp
    intro hn
    rw [firstError_eq_none_iff] at hn
    have hd := hn.2.2.2.2.2.1
    unfold delayRejected at hd
    omega

/-- A command line delaying note-on by 11 seconds of a 10-second test. -/
def argsDelay11 : List CStr :=
  [['-','t','v'], ['-','n','8'], ['-','p','5','0'],
   ['-','r','4','8','0','0','0'], ['-','s','1','0'], ['-','b','6','4'],
   ['-','d','1','1'], ['-','c','0']]

/-- The parse of `argsDelay11`. -/
def paramsDelay11 : Params :=
  { percentCpu := 50, sampleRate := 48000, framesPerBurst := 64,
    numSeconds := 10, numVoices := 8, numVoicesHigh := 0,
    numSecondsDelayNoteOn := 11, cpuAffinity := 0, testCode := 'v' }

/-- Witness for claim C7 at delay 11 > duration 10. -/
theorem noteOnDelay_validation_witness :
    mainModel specConsts argsDelay11 = .usageError :=
  (noteOnDelay_validation specConsts argsDelay11 paramsDelay11
    (by decide)).2 (by decide)

/-! ### Exit status after a run (claim C8) -/

/-- Claim C8: whenever `runTest` is reached, the process exit status of
`main` is exactly the result code held in the `SynthMarkResult` that
`runTest` produced (`return result.getResultCode()`): 0 reports a pass and
any non-zero code reports the specific failure kind `runTest` recorded. -/
theorem exit_status_is_result_code
    (rt : HarnessSetup → Params → SynthMarkResult) (c : Consts)
    (args : List CStr) (h : HarnessSetup) (p : Params)
    (hm : mainModel c args = .run h p) :
    programExit rt c args = (rt h p).resultCode := by
  unfold programExit
  rw [hm]
  rfl

/-- A command line that starts a jitter run with every parameter valid. -/
def argsRunOk : List CStr :=
  [['-','t','j'], ['-','n','8'], ['-','p','5','0'],
   ['-','r','4','8','0','0','0'], ['-','s','1','0'], ['-','b','6','4'],
   ['-','d','0'], ['-','c','0']]

/-- The parse of `argsRunOk`. -/
def paramsRunOk : Params :=
  { percentCpu := 50, sampleRate := 48000, framesPerBurst := 64,
    numSeconds := 10, numVoices := 8, numVoicesHigh := 0,
    numSecondsDelayNoteOn := 0, cpuAffinity := 0, testCode := 'j' }

/-- Witness for claim C8: with a `runTest` whose result code is 3, the
process exits with status 3. -/
theorem exit_status_is_result_code_witness :
    programExit (fun _ _ => ⟨3⟩) specConsts argsRunOk = 3 :=
  exit_status_is_result_code (fun _ _ => ⟨3⟩) specConsts argsRunOk
    (.jitter 8 0) paramsRunOk (by decide)

/-! ### Test duration lower bound (claim C9) -/

/-- Claim C9: any requested duration below 1 second — including the 0 that
`atoi` produces for an unparsable `-s` argument — is rejected with exit
status 1 before any harness is constructed. -/
theorem short_duration_rejected
    (c : Consts) (args : List CStr) (p : Params)
    (hp : parseArgs (defaults c) args = .ok p)
    (hs : p.numSeconds < 1) :
    mainModel c args = .usageError := by
  apply mainModel_usageError_of_firstError c args p hp
  intro hn
  rw [firstError_eq_none_iff] at hn
  exact hn.2.2.2.2.1 hs

/-- A command line whose `-s` argument is the unparsable `xyz`, which
`atoi` turns into 0. -/
def argsBadSeconds : List CStr :=
  [['-','t','v'], ['-','n','8'], ['-','p','5','0'],
   ['-','r','4','8','0','0','0'], ['-','s','x','y','z'], ['-','b','6','4'],
   ['-','d','0'], ['-','c','0']]

/-- The parse of `argsBadSeconds`: `numSeconds = atoi "xyz" = 0`. -/
def paramsBadSeconds : Params :=
  { percentCpu := 50, sampleRate := 48000, framesPerBurst := 64,
    numSeconds := 0, numVoices := 8, numVoicesHigh := 0,
    numSecondsDelayNoteOn := 0, cpuAffinity := 0, testCode := 'v' }

/-- Witness for claim C9 at the unparsable `-sxyz` (duration 0). -/
theorem short_duration_rejected_witness :
    mainModel specConsts argsBadSeconds = .usageError :=
  short_duration_rejected specConsts argsBadSeconds paramsBadSeconds
    (by decide) (by decide)

/-! ### The help flags (claim C10) -/

/-- An argument the loop recognizes as a parameter switch and keeps going. -/
abbrev isSetterArg (a : CStr) : Prop :=
  cGet a 0 = '-' ∧
  cGet a 1 ∈ (['c', 'p', 'n', 'N', 'd', 'r', 's', 'b', 't'] : List Char)

/-- An argument the loop recognizes as a help request (`-h` or `-?`). -/
abbrev isHelpArg (a : CStr) : Prop :=
  cGet a 0 = '-' ∧ (cGet a 1 = 'h' ∨ cGet a 1 = '?')

theorem parseStep_setter (p : Params) (a : CStr) (h : isSetterArg a) :
    ∃ q, parseStep p a = .next q := by
  obtain ⟨h0, hsw⟩ := h
  unfold parseStep
  rw [if_pos h0]
  simp only [List.mem_cons, List.not_mem_nil, or_false] at hsw
  rcases hsw with h | h | h | h | h | h | h | h | h <;> rw [h] <;>
    exact ⟨_, rfl⟩

theorem parseStep_help (p : Params) (a : CStr) (h : isHelpArg a) :
    parseStep p a = .help := by
  obtain ⟨h0, hsw⟩ := h
  unfold parseStep
  rw [if_pos h0]
  rcases hsw with h | h <;> rw [h] <;> rfl

theorem parseArgs_help_after_setters (p0 : Params) (pre post : List CStr)
    (a : CStr) (hpre : ∀ b ∈ pre, isSetterArg b) (ha : isHelpArg a) :
    parseArgs p0 (pre ++ a :: post) = .help := by
  induction pre generalizing p0 with
  | nil =>
      simp only [List.nil_append, parseArgs, parseStep_help p0 a ha]
  | cons b rest ih =>
      obtain ⟨q, hq⟩ := parseStep_setter p0 b (hpre b (List.mem_cons_self b rest))
      simp only [List.cons_append, parseArgs, hq]
      exact ih q (fun x hx => hpre x (List.mem_cons_of_mem b hx))

/-- Claim C10: if the argument loop meets `-h` or `-?` after only
recognized parameter switches, `main` prints the usage text and returns
exit status 0 immediately — whatever arguments follow are never examined,
no validation runs, and no test runs. -/
theorem help_flag_exits_zero
    (rt : HarnessSetup → Params → SynthMarkResult) (c : Consts)
    (pre post : List CStr) (a : CStr)
    (hpre : ∀ b ∈ pre, isSetterArg b) (ha : isHelpArg a) :
    mainModel c (pre ++ a :: post) = .helpExit ∧
    programExit rt c (pre ++ a :: post) = 0 := by
  have hp := parseArgs_help_after_setters (defaults c) pre post a hpre ha
  refine ⟨?_, ?_⟩
  · simp [mainModel, hp]
  · simp [programExit, mainModel, hp, exitOf]

/-- Arguments preceding the help flag in the C10 witness. -/
def argsHelpPre : List CStr := [['-','n','4']]

/-- Arguments following the help flag in the C10 witness; `-z` would be an
error if it were ever examined. -/
def argsHelpPost : List CStr := [['-','z']]

/-- Witness for claim C10: `-n4 -h -z` exits 0 with the usage text even
though `-z` is unrecognized and `runTest` would report code 9. -/
theorem help_flag_exits_zero_witness :
    mainModel specConsts (argsHelpPre ++ ['-','h'] :: argsHelpPost) =
      .helpExit ∧
    programExit (fun _ _ => ⟨9⟩) specConsts
      (argsHelpPre ++ ['-','h'] :: argsHelpPost) = 0 :=
  help_flag_exits_zero (fun _ _ => ⟨9⟩) specConsts argsHelpPre argsHelpPost
    ['-','h'] (by decide) (by decide)

end SynthMarkCli
